import Mathlib

/-!
Shallow embedding of the real-time event subscription and dispatch client of
pyControl4 (src/pyControl4/websocket.py), covering:
  - the callback registry (C4Websocket.add_item_callback,
    C4Websocket.remove_item_callback, backed by a Python dict from int item id
    to a list of callback references);
  - the dispatcher (C4Websocket._callback, C4Websocket._process_message);
  - the handshake negotiator (_C4DirectorNamespace.on_clientId,
    _C4DirectorNamespace.trigger_event).

Modelling conventions:
  - JSON-shaped payloads are `JVal` values; a record (Python dict parsed from
    JSON) is an association list `JDict` with string keys; key lookup returns
    the first matching entry, as a Python dict with unique keys does.
  - A Python dict from int to list is an insertion-ordered association list
    `Registry`; assignment to an existing key keeps its position, a new key is
    appended at the end, `del` removes the entry.
  - A callback reference is an opaque token `Cb := Nat`; Python compares
    callbacks by identity, here by equality of tokens.  Whether a callback
    raises when invoked is a separate behaviour map `Beh`; a single callback
    invocation is `runCallback`, returning `Except` like a Python call that can
    raise.  The dispatcher functions are total: the per-callback try/except of
    _process_message is the `match` on `runCallback` inside `invokeLoop`, so no
    callback exception reaches the caller of the dispatcher.
  - Network and socket effects are explicit: emitted socket.io messages are
    collected in an `Emit` list, the handshake GET response is passed in as the
    already-parsed `JDict` (a JSON null field value is `JVal.null`, which
    Python json parses to None, indistinguishable from an absent key for
    `dict.get`).
-/

namespace PyControl4

/-- A JSON-shaped scalar value appearing as a field of a record. -/
inductive JVal where
  | str (s : String)
  | num (n : Int)
  | null
deriving DecidableEq, Repr

/-- A record: a JSON object / Python dict, as an association list with unique
string keys. -/
abbrev JDict := List (String × JVal)

/-- Python `d.get(k)`: the value of the first entry with key `k`, if any. -/
def dictGet (fields : JDict) (k : String) : Option JVal :=
  match fields with
  | [] => none
  | p :: rest => if p.1 = k then some p.2 else dictGet rest k

/-- A payload arriving on the subscription channel: a single record or a batch
list of records (websocket.py line 226: `isinstance(message, list)`). -/
inductive Msg where
  | obj (fields : JDict)
  | arr (elems : List JDict)
deriving DecidableEq, Repr

/-- An opaque callback reference (Python function object, compared by
identity). -/
abbrev Cb := Nat

/-- One attempted callback invocation: `callback(device_id, record)`
(websocket.py line 251). -/
abbrev Call := Cb × Int × JDict

/-- The callback registry `C4Websocket._item_callbacks`: a Python dict from
int item id to the list of registered callbacks, insertion ordered. -/
abbrev Registry := List (Int × List Cb)

/-- The behaviour of the registered callbacks: `beh cb d rec = true` means the
callback `cb` raises an exception when invoked as `cb(d, rec)`. -/
abbrev Beh := Cb → Int → JDict → Bool

/-- Python `item_id in self._item_callbacks`. -/
def keyMem (r : Registry) (d : Int) : Bool :=
  match r with
  | [] => false
  | p :: rest => if p.1 = d then true else keyMem rest d

/-- Python `self._item_callbacks.get(item_id, [])` (and, for a present key,
`self._item_callbacks[item_id]`). -/
def regGet (r : Registry) (d : Int) : List Cb :=
  match r with
  | [] => []
  | p :: rest => if p.1 = d then p.2 else regGet rest d

/-- Python dict assignment `self._item_callbacks[item_id] = l`: overwrite the
existing entry in place, or append a new entry at the end. -/
def regSet (r : Registry) (d : Int) (l : List Cb) : Registry :=
  match r with
  | [] => [(d, l)]
  | p :: rest => if p.1 = d then (d, l) :: rest else p :: regSet rest d l

/-- Python `del self._item_callbacks[item_id]`. -/
def regDel (r : Registry) (d : Int) : Registry :=
  match r with
  | [] => []
  | p :: rest => if p.1 = d then regDel rest d else p :: regDel rest d

/-- C4Websocket.add_item_callback (websocket.py lines 141-155): create an
empty list for a missing key, then append the callback unless it is already
registered for this item id. -/
def add_item_callback (r : Registry) (d : Int) (cb : Cb) : Registry :=
  let r1 := if keyMem r d then r else regSet r d []
  if cb ∈ regGet r1 d then r1 else regSet r1 d (regGet r1 d ++ [cb])

/-- C4Websocket.remove_item_callback (websocket.py lines 157-180): a missing
key is a no-op; `callback=None` removes the whole entry; otherwise remove the
first occurrence of the callback (list.remove), pruning the entry if the list
becomes empty, and swallow the ValueError when the callback is not present. -/
def remove_item_callback (r : Registry) (d : Int) (cb : Option Cb) : Registry :=
  if keyMem r d then
    match cb with
    | none => regDel r d
    | some c =>
        if c ∈ regGet r d then
          let l := (regGet r d).erase c
          if l = [] then regDel r d else regSet r d l
        else r
  else r

/-- One registry mutation through the public API. -/
inductive RegOp where
  | add (d : Int) (cb : Cb)
  | remove (d : Int) (cb : Option Cb)
deriving DecidableEq, Repr

/-- Apply one API call to the registry. -/
def applyOp (r : Registry) (op : RegOp) : Registry :=
  match op with
  | .add d cb => add_item_callback r d cb
  | .remove d cb => remove_item_callback r d cb

/-- Apply a finite sequence of API calls starting from the empty registry. -/
def applyOps (ops : List RegOp) : Registry :=
  ops.foldl applyOp []

/-- The registry invariant of the spec: every stored entry has a non-empty
callback list (so a key is present iff it has at least one callback). -/
def RegInv (r : Registry) : Prop := ∀ p ∈ r, p.2 ≠ []

/-- The device identifier of a record: `message.get("iddevice")`
(websocket.py line 235).  A non-integer value behaves exactly like a missing
key for dispatch purposes: it can never match an int key of the registry, so
no callback is looked up and nothing is invoked. -/
def getDeviceId (fields : JDict) : Option Int :=
  match dictGet fields "iddevice" with
  | some (.num n) => some n
  | _ => none

/-- The exception a misbehaving callback raises. -/
inductive CbErr where
  | raised (cb : Cb) (d : Int)
deriving DecidableEq, Repr

/-- One callback invocation `await callback(device_id, message)`
(websocket.py line 251), which may raise. -/
def runCallback (beh : Beh) (cb : Cb) (d : Int) (m : JDict) : Except CbErr Unit :=
  if beh cb d m then .error (.raised cb d) else .ok ()

/-- The `for callback in callbacks[:]` loop of _process_message
(websocket.py lines 245-253): invoke every callback in list order; the
per-iteration try/except is the `match`, so an exception from one invocation
is captured (second component, the logged exceptions) and the loop continues.
Returns (attempted invocations in order, captured exceptions in order). -/
def invokeLoop (beh : Beh) (d : Int) (m : JDict) (cbs : List Cb) :
    List Call × List Call :=
  match cbs with
  | [] => ([], [])
  | cb :: rest =>
      let tail := invokeLoop beh d m rest
      match runCallback beh cb d m with
      | .ok _ => ((cb, d, m) :: tail.1, tail.2)
      | .error _ => ((cb, d, m) :: tail.1, (cb, d, m) :: tail.2)

/-- Result of a dispatcher run: the registry afterwards, the attempted
callback invocations in order, and the callback exceptions captured and logged
at the dispatch boundary.  The dispatcher itself is a total function: no field
carries an escaping exception, mirroring that every raise inside the loop is
swallowed by the try/except. -/
structure DispOut where
  reg : Registry
  calls : List Call
  captured : List Call
deriving DecidableEq, Repr

/-- C4Websocket._process_message (websocket.py lines 232-253): a non-dict
message or a record without an int-keyed `iddevice` field is dropped (log
only); a device id with no registered callbacks is dropped silently; otherwise
every registered callback is invoked over a snapshot of the list.  The
registry is only read, never written. -/
def process_message (reg : Registry) (beh : Beh) (m : Msg) : DispOut :=
  match m with
  | .arr _ => ⟨reg, [], []⟩
  | .obj fields =>
      match getDeviceId fields with
      | none => ⟨reg, [], []⟩
      | some d =>
          let cbs := regGet reg d
          if cbs = [] then ⟨reg, [], []⟩
          else
            let p := invokeLoop beh d fields cbs
            ⟨reg, p.1, p.2⟩

/-- The `for m in message` loop of C4Websocket._callback (websocket.py lines
226-228): process the batch elements strictly in array order, awaiting each
before the next. -/
def processList (reg : Registry) (beh : Beh) (elems : List JDict) :
    List Call × List Call :=
  match elems with
  | [] => ([], [])
  | m :: rest =>
      let o := process_message reg beh (.obj m)
      let t := processList reg beh rest
      (o.calls ++ t.1, o.captured ++ t.2)

/-- C4Websocket._callback (websocket.py lines 223-230): the `"status" in
message` check at line 224 only logs and does not stop processing; a list
payload is iterated element by element, anything else is processed as a single
record. -/
def c4Callback (reg : Registry) (beh : Beh) (msg : Msg) : DispOut :=
  match msg with
  | .arr elems =>
      let p := processList reg beh elems
      ⟨reg, p.1, p.2⟩
  | .obj _ => process_message reg beh msg

/-- Connection state of _C4DirectorNamespace: the `connected` flag and the
stored `subscription_id` (websocket.py lines 34-35); the subscription id is
whatever JSON value the handshake response carried. -/
structure NsState where
  connected : Bool
  subscription_id : Option JVal
deriving DecidableEq, Repr

/-- Python truthiness of a field value, for `not self.subscription_id`. -/
def jvalFalsy (v : JVal) : Bool :=
  match v with
  | .str s => s = ""
  | .num n => n = 0
  | .null => true

/-- Python truthiness of `self.subscription_id` (None and empty string are
falsy). -/
def optFalsy (o : Option JVal) : Bool :=
  match o with
  | none => true
  | some v => jvalFalsy v

/-- A socket.io message emitted by the namespace. -/
inductive Emit where
  | probe
  | statusAck
  | startSubscription (sid : JVal)
deriving DecidableEq, Repr

/-- The exceptions the handshake path can raise: the classes of
error_handling.py raised by check_response_for_error, Python's AttributeError,
and the ValueError raised by on_clientId itself when no subscription id is
found. -/
inductive C4Error where
  | unauthorized
  | notFound
  | badCredentials
  | badToken
  | invalidCategory
  | c4Exception
  | attributeError
  | valueError (msg : String)
deriving DecidableEq, Repr

/-- Python `str(v)` for a parsed JSON field value, as used by
`ERROR_CODES.get(str(code), ...)` in error_handling.py. -/
def pyStr (v : JVal) : String :=
  match v with
  | .str s => s
  | .num n => toString n
  | .null => "None"

/-- Python `x is None` for a field fetched with `dict.get`: true when the key
is absent or its JSON value is null (json parses null to Python None). -/
def pyIsNone (o : Option JVal) : Bool :=
  match o with
  | none => true
  | some .null => true
  | some _ => false

/-- error_handling._raise_error on the extracted error info: match the
details string first (most specific), then the code against ERROR_CODES,
then the error against DIRECTOR_ERRORS, else the generic C4Exception.  This
function always raises. -/
def _raise_error (details code error : Option JVal) : C4Error :=
  if details = some (.str "Permission denied Bad credentials") then
    .badCredentials
  else if details = some (.str "Expired or invalid token") then
    .badToken
  else if pyIsNone code = false then
    match code with
    | some v =>
        if pyStr v = "401" then .unauthorized
        else if pyStr v = "404" then .notFound
        else .c4Exception
    | none => .c4Exception
  else if pyIsNone error = false then
    match error with
    | some v =>
        if pyStr v = "Unauthorized" then .unauthorized
        else if pyStr v = "Invalid category" then .invalidCategory
        else .c4Exception
    | none => .c4Exception
  else .c4Exception

/-- error_handling.check_response_for_error on a response body that parses as
a JSON object (the handshake GET responses the claims quantify over): returns
the exception it raises, if any.  Branch selection follows
_extract_error_info: a `C4ErrorResponse` key first, then a `code` key, then
an `error` key, else no error.  In this flat value model a C4ErrorResponse
value is a scalar, on which Python's `error_resp.get` raises AttributeError;
in the source every C4ErrorResponse-keyed body likewise raises inside the
check (via _raise_error when the value is a dict), so this branch always
raising is faithful. -/
def check_response_for_error (d : JDict) : Option C4Error :=
  if (dictGet d "C4ErrorResponse").isSome then
    some .attributeError
  else if (dictGet d "code").isSome then
    some ( _raise_error (dictGet d "details") (dictGet d "code") none)
  else if (dictGet d "error").isSome then
    some ( _raise_error (dictGet d "details") none (dictGet d "error"))
  else none

/-- Result of _C4DirectorNamespace.on_clientId: the namespace state
afterwards, the emitted messages in order, whether the subscription-id GET was
issued, and the exception surfaced to the caller, if any. -/
structure ClientIdOut where
  st : NsState
  emits : List Emit
  fetched : Bool
  err : Option C4Error
deriving DecidableEq, Repr

/-- _C4DirectorNamespace.on_clientId (websocket.py lines 66-91): always emit
the probe message; if not connected and the held subscription id is falsy,
issue the authenticated GET (its parsed JSON body is `response`).  The body is
first passed through check_response_for_error (line 79), whose exception, if
any, aborts the handshake before any state change; then a missing
`subscriptionId` field (Python json turns a JSON null into None, which
`dict.get` reports the same way) raises ValueError, still before any state
change; otherwise set the connected flag, store the id and emit
startSubscription carrying it. -/
def on_clientId (st : NsState) (response : JDict) : ClientIdOut :=
  if st.connected = false ∧ optFalsy st.subscription_id = true then
    match check_response_for_error response with
    | some e => ⟨st, [.probe], true, some e⟩
    | none =>
        match dictGet response "subscriptionId" with
        | none =>
            ⟨st, [.probe], true,
              some (.valueError
                "Failed to get subscription ID from Control4 Director")⟩
        | some .null =>
            ⟨st, [.probe], true,
              some (.valueError
                "Failed to get subscription ID from Control4 Director")⟩
        | some v =>
            ⟨⟨true, some v⟩, [.probe, .startSubscription v], true, none⟩
  else ⟨st, [.probe], false, none⟩

/-- Result of one trigger_event dispatch: namespace state, registry, emitted
messages, attempted callback invocations, captured callback exceptions, and
the exception surfaced to the socket.io machinery, if any. -/
structure EventOut where
  st : NsState
  reg : Registry
  emits : List Emit
  calls : List Call
  captured : List Call
  err : Option C4Error
deriving DecidableEq, Repr

/-- _C4DirectorNamespace.trigger_event (websocket.py lines 49-64): route by
event name; an event equal to the held (string) subscription id is
subscription data: a payload containing a `status` key is acknowledged with
the lightweight ack and not dispatched — but Python `"status" in msg` on a
list payload is element membership, false for a list of records, so a batch
falls through to the dispatcher.  `response` is the parsed body of the
handshake GET consulted only on a clientId event; the connect and disconnect
user hooks are external effects not modelled. -/
def trigger_event (st : NsState) (reg : Registry) (beh : Beh) (event : String)
    (arg : Msg) (response : JDict) : EventOut :=
  if event = "subscribe" then ⟨st, reg, [], [], [], none⟩
  else if event = "connect" then ⟨st, reg, [], [], [], none⟩
  else if event = "disconnect" then ⟨⟨false, none⟩, reg, [], [], [], none⟩
  else if event = "clientId" then
    let o := on_clientId st response
    ⟨o.st, reg, o.emits, [], [], o.err⟩
  else if st.subscription_id = some (.str event) then
    match arg with
    | .obj fields =>
        if (dictGet fields "status").isSome then
          ⟨st, reg, [.statusAck], [], [], none⟩
        else
          let o := c4Callback reg beh arg
          ⟨st, o.reg, [], o.calls, o.captured, none⟩
    | .arr _ =>
        let o := c4Callback reg beh arg
        ⟨st, o.reg, [], o.calls, o.captured, none⟩
  else ⟨st, reg, [], [], [], none⟩

/-! ### Registry lemmas -/

theorem regGet_regSet_self (r : Registry) (d : Int) (l : List Cb) :
    regGet (regSet r d l) d = l := by
  induction r with
  | nil => simp [regSet, regGet]
  | cons p rest ih =>
      by_cases h : p.1 = d <;> simp [regSet, regGet, h, ih]

theorem regGet_regSet_ne (d d2 : Int) (h : d2 ≠ d) (r : Registry) (l : List Cb) :
    regGet (regSet r d l) d2 = regGet r d2 := by
  induction r with
  | nil => simp [regSet, regGet, Ne.symm h]
  | cons p rest ih =>
      by_cases hp : p.1 = d
      · simp [regSet, regGet, hp, h, Ne.symm h]
      · by_cases hq : p.1 = d2 <;> simp [regSet, regGet, hp, hq, h, Ne.symm h, ih]

theorem regGet_regDel_ne (d d2 : Int) (h : d2 ≠ d) (r : Registry) :
    regGet (regDel r d) d2 = regGet r d2 := by
  induction r with
  | nil => simp [regDel]
  | cons p rest ih =>
      by_cases hp : p.1 = d
      · simp [regDel, regGet, hp, h, Ne.symm h, ih]
      · by_cases hq : p.1 = d2 <;> simp [regDel, regGet, hp, hq, h, Ne.symm h, ih]

theorem regGet_eq_nil_of_keyMem_false (r : Registry) (d : Int)
    (h : keyMem r d = false) : regGet r d = [] := by
  induction r with
  | nil => simp [regGet]
  | cons p rest ih =>
      by_cases hp : p.1 = d
      · simp [keyMem, hp] at h
      · simp [keyMem, hp] at h
        simp [regGet, hp, ih h]

theorem keyMem_regSet_self (r : Registry) (d : Int) (l : List Cb) :
    keyMem (regSet r d l) d = true := by
  induction r with
  | nil => simp [regSet, keyMem]
  | cons p rest ih =>
      by_cases hp : p.1 = d <;> simp [regSet, keyMem, hp, ih]

theorem regSet_regSet (r : Registry) (d : Int) (l l2 : List Cb) :
    regSet (regSet r d l) d l2 = regSet r d l2 := by
  induction r with
  | nil => simp [regSet]
  | cons p rest ih =>
      by_cases hp : p.1 = d <;> simp [regSet, hp, ih]

theorem regGet_add_self (r : Registry) (d : Int) (cb : Cb) :
    regGet (add_item_callback r d cb) d =
      if cb ∈ regGet r d then regGet r d else regGet r d ++ [cb] := by
  by_cases hk : keyMem r d = true
  · by_cases hm : cb ∈ regGet r d
    · simp [add_item_callback, hk, hm]
    · simp [add_item_callback, hk, hm, regGet_regSet_self]
  · have hk2 : keyMem r d = false := by simpa using hk
    have hg : regGet r d = [] := regGet_eq_nil_of_keyMem_false r d hk2
    simp [add_item_callback, hk2, hg, regGet_regSet_self, regSet_regSet]

theorem regGet_add_ne (d d2 : Int) (h : d2 ≠ d) (r : Registry) (cb : Cb) :
    regGet (add_item_callback r d cb) d2 = regGet r d2 := by
  by_cases hk : keyMem r d = true
  · by_cases hm : cb ∈ regGet r d
    · simp [add_item_callback, hk, hm]
    · simp [add_item_callback, hk, hm, regGet_regSet_ne d d2 h]
  · have hk2 : keyMem r d = false := by simpa using hk
    have hg : regGet r d = [] := regGet_eq_nil_of_keyMem_false r d hk2
    simp [add_item_callback, hk2, hg, regGet_regSet_self, regSet_regSet,
      regGet_regSet_ne d d2 h]

theorem keyMem_add_self (r : Registry) (d : Int) (cb : Cb) :
    keyMem (add_item_callback r d cb) d = true := by
  by_cases hk : keyMem r d = true
  · by_cases hm : cb ∈ regGet r d
    · simp [add_item_callback, hk, hm]
    · simp [add_item_callback, hk, hm, keyMem_regSet_self]
  · have hk2 : keyMem r d = false := by simpa using hk
    have hg : regGet r d = [] := regGet_eq_nil_of_keyMem_false r d hk2
    simp [add_item_callback, hk2, hg, regGet_regSet_self, regSet_regSet,
      keyMem_regSet_self]

theorem add_item_callback_idem (r : Registry) (d : Int) (cb : Cb) :
    add_item_callback (add_item_callback r d cb) d cb = add_item_callback r d cb := by
  have hk : keyMem (add_item_callback r d cb) d = true := keyMem_add_self r d cb
  have hm : cb ∈ regGet (add_item_callback r d cb) d := by
    rw [regGet_add_self]
    by_cases h : cb ∈ regGet r d <;> simp [h]
  set r2 := add_item_callback r d cb with hr2
  simp [add_item_callback, hk, hm]

theorem regGet_remove_ne (d d2 : Int) (h : d2 ≠ d) (r : Registry)
    (cbo : Option Cb) :
    regGet (remove_item_callback r d cbo) d2 = regGet r d2 := by
  by_cases hk : keyMem r d = true
  · cases cbo with
    | none => simp [remove_item_callback, hk, regGet_regDel_ne d d2 h]
    | some c =>
        by_cases hm : c ∈ regGet r d
        · by_cases he : (regGet r d).erase c = []
          · simp [remove_item_callback, hk, hm, he, regGet_regDel_ne d d2 h]
          · simp [remove_item_callback, hk, hm, he, regGet_regSet_ne d d2 h]
        · simp [remove_item_callback, hk, hm]
  · have hk2 : keyMem r d = false := by simpa using hk
    simp [remove_item_callback, hk2]

/-! ### Registry invariant -/

theorem RegInv_nil : RegInv [] := by
  intro p hp
  cases hp

theorem RegInv_regSet (d : Int) (l : List Cb) (hl : l ≠ []) :
    ∀ r : Registry, RegInv r → RegInv (regSet r d l) := by
  intro r
  induction r with
  | nil =>
      intro _ p hp
      simp [regSet] at hp
      simp [hp, hl]
  | cons q rest ih =>
      intro hr p hp
      by_cases h : q.1 = d
      · simp [regSet, h] at hp
        rcases hp with hp | hp
        · simp [hp, hl]
        · exact hr p (List.mem_cons_of_mem q hp)
      · simp [regSet, h] at hp
        rcases hp with hp | hp
        · exact hp ▸ hr q (List.mem_cons_self q rest)
        · exact ih (fun x hx => hr x (List.mem_cons_of_mem q hx)) p hp

theorem RegInv_regDel (d : Int) :
    ∀ r : Registry, RegInv r → RegInv (regDel r d) := by
  intro r
  induction r with
  | nil =>
      intro _ p hp
      simp [regDel] at hp
  | cons q rest ih =>
      intro hr p hp
      by_cases h : q.1 = d
      · simp [regDel, h] at hp
        exact ih (fun x hx => hr x (List.mem_cons_of_mem q hx)) p hp
      · simp [regDel, h] at hp
        rcases hp with hp | hp
        · exact hp ▸ hr q (List.mem_cons_self q rest)
        · exact ih (fun x hx => hr x (List.mem_cons_of_mem q hx)) p hp

theorem RegInv_add (r : Registry) (d : Int) (cb : Cb) (hr : RegInv r) :
    RegInv (add_item_callback r d cb) := by
  by_cases hk : keyMem r d = true
  · by_cases hm : cb ∈ regGet r d
    · simpa [add_item_callback, hk, hm] using hr
    · have h2 : RegInv (regSet r d (regGet r d ++ [cb])) :=
        RegInv_regSet d _ (by simp) r hr
      simpa [add_item_callback, hk, hm] using h2
  · have hk2 : keyMem r d = false := by simpa using hk
    have hg : regGet r d = [] := regGet_eq_nil_of_keyMem_false r d hk2
    have h2 : RegInv (regSet r d [cb]) := RegInv_regSet d [cb] (by simp) r hr
    simpa [add_item_callback, hk2, hg, regGet_regSet_self, regSet_regSet] using h2

theorem RegInv_remove (r : Registry) (d : Int) (cbo : Option Cb)
    (hr : RegInv r) : RegInv (remove_item_callback r d cbo) := by
  by_cases hk : keyMem r d = true
  · cases cbo with
    | none => simpa [remove_item_callback, hk] using RegInv_regDel d r hr
    | some c =>
        by_cases hm : c ∈ regGet r d
        · by_cases he : (regGet r d).erase c = []
          · simpa [remove_item_callback, hk, hm, he] using RegInv_regDel d r hr
          · simpa [remove_item_callback, hk, hm, he] using
              RegInv_regSet d _ he r hr
        · simpa [remove_item_callback, hk, hm] using hr
  · have hk2 : keyMem r d = false := by simpa using hk
    simpa [remove_item_callback, hk2] using hr

theorem RegInv_applyOp (r : Registry) (op : RegOp) (hr : RegInv r) :
    RegInv (applyOp r op) := by
  cases op with
  | add d cb => exact RegInv_add r d cb hr
  | remove d cb => exact RegInv_remove r d cb hr

theorem RegInv_foldl :
    ∀ (ops : List RegOp) (r : Registry), RegInv r →
      RegInv (ops.foldl applyOp r) := by
  intro ops
  induction ops with
  | nil => intro r hr; simpa using hr
  | cons op rest ih => intro r hr; exact ih (applyOp r op) (RegInv_applyOp r op hr)

theorem keyMem_true_iff_regGet_ne_nil (d : Int) :
    ∀ r : Registry, RegInv r → (keyMem r d = true ↔ regGet r d ≠ []) := by
  intro r
  induction r with
  | nil => intro _; simp [keyMem, regGet]
  | cons q rest ih =>
      intro hr
      by_cases h : q.1 = d
      · simpa [keyMem, regGet, h] using hr q (List.mem_cons_self q rest)
      · simpa [keyMem, regGet, h] using
          ih (fun x hx => hr x (List.mem_cons_of_mem q hx))

/-! ### Dispatcher lemmas -/

theorem invokeLoop_fst (beh : Beh) (d : Int) (m : JDict) (cbs : List Cb) :
    (invokeLoop beh d m cbs).1 = cbs.map (fun cb => (cb, d, m)) := by
  induction cbs with
  | nil => simp [invokeLoop]
  | cons cb rest ih =>
      by_cases h : beh cb d m = true <;> simp [invokeLoop, runCallback, h, ih]

theorem invokeLoop_snd (beh : Beh) (d : Int) (m : JDict) (cbs : List Cb) :
    (invokeLoop beh d m cbs).2 =
      (invokeLoop beh d m cbs).1.filter (fun c => beh c.1 c.2.1 c.2.2) := by
  induction cbs with
  | nil => simp [invokeLoop]
  | cons cb rest ih =>
      by_cases h : beh cb d m = true <;>
        simp [invokeLoop, runCallback, h, ih]

theorem process_message_reg (reg : Registry) (beh : Beh) (m : Msg) :
    (process_message reg beh m).reg = reg := by
  cases m with
  | arr elems => rfl
  | obj fields =>
      cases h : getDeviceId fields with
      | none => simp [process_message, h]
      | some d => by_cases hc : regGet reg d = [] <;> simp [process_message, h, hc]

theorem process_message_none (reg : Registry) (beh : Beh) (fields : JDict)
    (h : getDeviceId fields = none) :
    process_message reg beh (.obj fields) = ⟨reg, [], []⟩ := by
  simp [process_message, h]

theorem process_message_calls_some (reg : Registry) (beh : Beh)
    (fields : JDict) (d : Int) (h : getDeviceId fields = some d) :
    (process_message reg beh (.obj fields)).calls
      = (regGet reg d).map (fun cb => (cb, d, fields)) := by
  by_cases hc : regGet reg d = []
  · simp [process_message, h, hc]
  · simp [process_message, h, hc, invokeLoop_fst]

theorem process_message_captured (reg : Registry) (beh : Beh) (m : Msg) :
    (process_message reg beh m).captured =
      (process_message reg beh m).calls.filter (fun c => beh c.1 c.2.1 c.2.2) := by
  cases m with
  | arr elems => simp [process_message]
  | obj fields =>
      cases h : getDeviceId fields with
      | none => simp [process_message, h]
      | some d =>
          by_cases hc : regGet reg d = [] <;>
            simp [process_message, h, hc, invokeLoop_snd]

theorem process_message_calls_indep (reg : Registry) (beh beh2 : Beh) (m : Msg) :
    (process_message reg beh m).calls = (process_message reg beh2 m).calls := by
  cases m with
  | arr elems => rfl
  | obj fields =>
      cases h : getDeviceId fields with
      | none => simp [process_message, h]
      | some d =>
          rw [process_message_calls_some reg beh fields d h,
            process_message_calls_some reg beh2 fields d h]

theorem processList_fst (reg : Registry) (beh : Beh) (elems : List JDict) :
    (processList reg beh elems).1
      = (elems.map (fun m => (process_message reg beh (.obj m)).calls)).flatten := by
  induction elems with
  | nil => simp [processList]
  | cons m rest ih => simp [processList, ih]

theorem processList_snd (reg : Registry) (beh : Beh) (elems : List JDict) :
    (processList reg beh elems).2
      = (processList reg beh elems).1.filter (fun c => beh c.1 c.2.1 c.2.2) := by
  induction elems with
  | nil => simp [processList]
  | cons m rest ih =>
      simp [processList, ih, process_message_captured, List.filter_append]

theorem processList_fst_indep (reg : Registry) (beh beh2 : Beh) :
    ∀ elems : List JDict,
      (processList reg beh elems).1 = (processList reg beh2 elems).1 := by
  intro elems
  induction elems with
  | nil => rfl
  | cons m rest ih =>
      simp only [processList]
      rw [process_message_calls_indep reg beh beh2 (.obj m), ih]

theorem c4Callback_reg (reg : Registry) (beh : Beh) (msg : Msg) :
    (c4Callback reg beh msg).reg = reg := by
  cases msg with
  | arr elems => rfl
  | obj fields => exact process_message_reg reg beh (.obj fields)

theorem c4Callback_calls_indep (reg : Registry) (beh beh2 : Beh) (msg : Msg) :
    (c4Callback reg beh msg).calls = (c4Callback reg beh2 msg).calls := by
  cases msg with
  | obj fields => exact process_message_calls_indep reg beh beh2 (.obj fields)
  | arr elems => exact processList_fst_indep reg beh beh2 elems

theorem c4Callback_captured (reg : Registry) (beh : Beh) (msg : Msg) :
    (c4Callback reg beh msg).captured
      = (c4Callback reg beh msg).calls.filter (fun c => beh c.1 c.2.1 c.2.2) := by
  cases msg with
  | obj fields => exact process_message_captured reg beh (.obj fields)
  | arr elems => exact processList_snd reg beh elems

theorem mem_process_message_calls (reg : Registry) (beh : Beh)
    (fields : JDict) (c : Call)
    (hc : c ∈ (process_message reg beh (.obj fields)).calls) :
    c.2.2 = fields := by
  cases h : getDeviceId fields with
  | none => simp [process_message, h] at hc
  | some d =>
      rw [process_message_calls_some reg beh fields d h] at hc
      rcases List.mem_map.mp hc with ⟨cb, _, hcb⟩
      rw [← hcb]

theorem count_map_call (l : List Cb) (cb : Cb) (d : Int) (m : JDict) :
    (l.map (fun c => (c, d, m))).count (cb, d, m) = l.count cb := by
  induction l with
  | nil => simp
  | cons x rest ih =>
      by_cases h : x = cb <;> simp [List.count_cons, h, ih]

/-! ### Claims -/

/-- C1: exceptions raised by callbacks are contained at the dispatch boundary:
the attempted invocations of a dispatch are exactly those of a run in which no
callback raises (so one raising callback prevents no remaining invocation, for
the same or any other device id of the batch), every raised exception is
captured and logged by the boundary try/except rather than propagated (the
dispatcher result is total, with no escaping-exception channel, so nothing
reaches the transport read loop), and the registry is untouched. -/
theorem dispatch_isolates_callback_exceptions (reg : Registry) (beh : Beh)
    (msg : Msg) :
    (c4Callback reg beh msg).calls
        = (c4Callback reg (fun _ _ _ => false) msg).calls ∧
    (c4Callback reg beh msg).captured
        = (c4Callback reg beh msg).calls.filter (fun c => beh c.1 c.2.1 c.2.2) ∧
    (c4Callback reg beh msg).reg = reg :=
  ⟨c4Callback_calls_indep reg beh (fun _ _ _ => false) msg,
    c4Callback_captured reg beh msg, c4Callback_reg reg beh msg⟩

/-- C4: for every finite sequence of add_item_callback and
remove_item_callback operations starting from the empty registry, a device id
is a key of the callback map iff its callback list is non-empty: empty lists
are pruned on removal and removing a missing entry is a no-op, so the
invariant holds after every step. -/
theorem registry_key_iff_nonempty_callbacks (ops : List RegOp) (d : Int) :
    keyMem (applyOps ops) d = true ↔ regGet (applyOps ops) d ≠ [] :=
  keyMem_true_iff_regGet_ne_nil d (applyOps ops) (RegInv_foldl ops [] RegInv_nil)

/-- C5: registering the same callback twice for the same device id leaves the
registry equal to the one-call state (the second call is a no-op), and a
single matching event record then invokes that callback exactly once. -/
theorem double_registration_single_invocation (r : Registry) (d : Int)
    (cb : Cb) (beh : Beh) (fields : JDict)
    (hdev : getDeviceId fields = some d) (hnew : cb ∉ regGet r d) :
    add_item_callback (add_item_callback r d cb) d cb
        = add_item_callback r d cb ∧
    (process_message (add_item_callback (add_item_callback r d cb) d cb) beh
        (.obj fields)).calls.count (cb, d, fields) = 1 := by
  refine ⟨add_item_callback_idem r d cb, ?_⟩
  rw [add_item_callback_idem r d cb,
    process_message_calls_some _ beh fields d hdev,
    regGet_add_self, if_neg hnew, count_map_call, List.count_append]
  simp [List.count_eq_zero.mpr hnew]

/-- Witness for C5 at a concrete input: device 42, callback 0, record with
iddevice 42, empty initial registry. -/
theorem double_registration_single_invocation_witness :
    add_item_callback (add_item_callback [] 42 0) 42 0
        = add_item_callback [] 42 0 ∧
    (process_message (add_item_callback (add_item_callback [] 42 0) 42 0)
        (fun _ _ _ => false) (.obj [("iddevice", JVal.num 42)])).calls.count
        (0, 42, [("iddevice", JVal.num 42)]) = 1 :=
  double_registration_single_invocation [] 42 0 (fun _ _ _ => false)
    [("iddevice", JVal.num 42)] (by decide) (by simp [regGet])

/-- C7: a batch frame is dispatched strictly in array order — the invocation
sequence is the concatenation of the per-record sequences, so every callback
of record i is awaited before any callback of record i+1 — a single record
invokes the stored callback list of its device id in order, and registration
appends, so the stored order is registration order. -/
theorem batch_dispatch_in_order (reg : Registry) (beh : Beh)
    (elems : List JDict) :
    (c4Callback reg beh (.arr elems)).calls
        = (elems.map (fun m => (process_message reg beh (.obj m)).calls)).flatten ∧
    (∀ fields d, getDeviceId fields = some d →
      (process_message reg beh (.obj fields)).calls
        = (regGet reg d).map (fun cb => (cb, d, fields))) ∧
    (∀ (r : Registry) (d : Int) (cb : Cb), cb ∉ regGet r d →
      regGet (add_item_callback r d cb) d = regGet r d ++ [cb]) := by
  refine ⟨processList_fst reg beh elems, ?_, ?_⟩
  · intro fields d h
    exact process_message_calls_some reg beh fields d h
  · intro r d cb h
    rw [regGet_add_self, if_neg h]

/-- Witness for C7 at concrete inputs: a one-callback registry for device 1,
a record for device 1, and a fresh callback 11 being appended. -/
theorem batch_dispatch_in_order_witness :
    (process_message [(1, [10])] (fun _ _ _ => false)
        (.obj [("iddevice", JVal.num 1)])).calls
      = (regGet [(1, [10])] 1).map
          (fun cb => (cb, 1, [("iddevice", JVal.num 1)])) ∧
    regGet (add_item_callback [(1, [10])] 1 11) 1 = regGet [(1, [10])] 1 ++ [11] :=
  ⟨(batch_dispatch_in_order [(1, [10])] (fun _ _ _ => false) []).2.1
      [("iddevice", JVal.num 1)] 1 (by decide),
    (batch_dispatch_in_order [(1, [10])] (fun _ _ _ => false) []).2.2
      [(1, [10])] 1 11 (by decide)⟩

/-- C8: an inbound data record without the iddevice field is dropped: the
dispatcher invokes no callback, captures and raises nothing, and the callback
registry is left unchanged. -/
theorem missing_iddevice_record_dropped (reg : Registry) (beh : Beh)
    (fields : JDict) (h : dictGet fields "iddevice" = none) :
    process_message reg beh (.obj fields) = ⟨reg, [], []⟩ :=
  process_message_none reg beh fields (by simp [getDeviceId, h])

/-- Witness for C8 at a concrete input: a record with only a value field,
against a non-empty registry and callbacks that would raise if invoked. -/
theorem missing_iddevice_record_dropped_witness :
    process_message [(1, [0])] (fun _ _ _ => true)
        (.obj [("value", JVal.num 7)]) = ⟨[(1, [0])], [], []⟩ :=
  missing_iddevice_record_dropped [(1, [0])] (fun _ _ _ => true)
    [("value", JVal.num 7)] (by decide)

/-- C10: add_item_callback and remove_item_callback leave the callback list
of every other device id unchanged, and add_item_callback preserves the
content and order of the callbacks already registered for the device itself,
at most appending the new one. -/
theorem registry_ops_frame (r : Registry) (d d2 : Int) (cb : Cb)
    (cbo : Option Cb) (h : d2 ≠ d) :
    regGet (add_item_callback r d cb) d2 = regGet r d2 ∧
    regGet (remove_item_callback r d cbo) d2 = regGet r d2 ∧
    regGet (add_item_callback r d cb) d
      = (if cb ∈ regGet r d then regGet r d else regGet r d ++ [cb]) :=
  ⟨regGet_add_ne d d2 h r cb, regGet_remove_ne d d2 h r cbo,
    regGet_add_self r d cb⟩

/-- Witness for C10 at concrete inputs: devices 1 and 2, adding callback 7
and removing callback 5 for device 1 leaves device 2 untouched. -/
theorem registry_ops_frame_witness :
    regGet (add_item_callback [(1, [5]), (2, [6])] 1 7) 2
        = regGet [(1, [5]), (2, [6])] 2 ∧
    regGet (remove_item_callback [(1, [5]), (2, [6])] 1 (some 5)) 2
        = regGet [(1, [5]), (2, [6])] 2 ∧
    regGet (add_item_callback [(1, [5]), (2, [6])] 1 7) 1
      = (if 7 ∈ regGet [(1, [5]), (2, [6])] 1 then regGet [(1, [5]), (2, [6])] 1
         else regGet [(1, [5]), (2, [6])] 1 ++ [7]) :=
  registry_ops_frame [(1, [5]), (2, [6])] 1 2 7 (some 5) (by decide)

/-- C2: a handshake GET response that parses as a JSON object but carries no
subscriptionId field makes on_clientId raise, surfacing the failure to the
caller instead of retrying silently, and leaves the connection state
Disconnected: the connected flag stays false, no subscription id is stored,
and no startSubscription message is emitted.  When the body is not
error-shaped (check_response_for_error passes), the surfaced exception is
exactly the ValueError of websocket.py line 83; an error-shaped body surfaces
the exception of the check instead, with the same state outcome. -/
theorem handshake_missing_subscription_id_fails (st : NsState)
    (response : JDict) (hconn : st.connected = false)
    (hsub : st.subscription_id = none)
    (hresp : dictGet response "subscriptionId" = none) :
    (on_clientId st response).err.isSome = true ∧
    (on_clientId st response).st.connected = false ∧
    (on_clientId st response).st.subscription_id = none ∧
    (∀ v, Emit.startSubscription v ∉ (on_clientId st response).emits) ∧
    (check_response_for_error response = none →
      (on_clientId st response).err
        = some (.valueError
            "Failed to get subscription ID from Control4 Director")) := by
  cases hch : check_response_for_error response with
  | some e =>
      have hout : on_clientId st response = ⟨st, [.probe], true, some e⟩ := by
        simp [on_clientId, hconn, hsub, hch, optFalsy]
      rw [hout]
      refine ⟨rfl, hconn, hsub, ?_, ?_⟩
      · intro v
        simp
      · intro h
        exact Option.noConfusion h
  | none =>
      have hout : on_clientId st response
          = ⟨st, [.probe], true,
              some (.valueError
                "Failed to get subscription ID from Control4 Director")⟩ := by
        simp [on_clientId, hconn, hsub, hch, hresp, optFalsy]
      rw [hout]
      refine ⟨rfl, hconn, hsub, ?_, fun _ => rfl⟩
      intro v
      simp

/-- Witness for C2 at a concrete input: a Disconnected state and an empty
parsed response body, which passes the error check. -/
theorem handshake_missing_subscription_id_fails_witness :
    (on_clientId ⟨false, none⟩ []).err.isSome = true ∧
    (on_clientId ⟨false, none⟩ []).st.connected = false ∧
    (on_clientId ⟨false, none⟩ []).st.subscription_id = none ∧
    (on_clientId ⟨false, none⟩ []).err
        = some (.valueError
            "Failed to get subscription ID from Control4 Director") :=
  have h := handshake_missing_subscription_id_fails ⟨false, none⟩ [] rfl rfl rfl
  ⟨h.1, h.2.1, h.2.2.1, h.2.2.2.2 rfl⟩

/-- C3 as stated is false: a response carrying a subscriptionId does not
always subscribe, because check_response_for_error (websocket.py line 79)
runs first and raises on any body with a code, error or C4ErrorResponse key.
Concretely, on the body with code 200 and subscriptionId abc the code raises
the generic C4Exception, stays Disconnected, stores nothing and emits no
startSubscription. -/
theorem handshake_error_body_not_subscribed_counterexample :
    (on_clientId ⟨false, none⟩
        [("code", JVal.num 200), ("subscriptionId", JVal.str "abc")]).st.connected
        = false ∧
    (on_clientId ⟨false, none⟩
        [("code", JVal.num 200), ("subscriptionId", JVal.str "abc")]).st.subscription_id
        = none ∧
    Emit.startSubscription (.str "abc") ∉
      (on_clientId ⟨false, none⟩
        [("code", JVal.num 200), ("subscriptionId", JVal.str "abc")]).emits ∧
    (on_clientId ⟨false, none⟩
        [("code", JVal.num 200), ("subscriptionId", JVal.str "abc")]).err
        = some .c4Exception := by
  decide

/-- C3 amended: a handshake GET response that passes the response-error check
(no C4ErrorResponse, code or error key) and carries a subscriptionId string
makes on_clientId mark the connection Subscribed (connected flag set), store
that id, and emit a startSubscription control message carrying exactly that
id. -/
theorem handshake_success_starts_subscription (st : NsState)
    (response : JDict) (s : String) (hconn : st.connected = false)
    (hsub : st.subscription_id = none)
    (hcheck : check_response_for_error response = none)
    (hresp : dictGet response "subscriptionId" = some (.str s)) :
    (on_clientId st response).st.connected = true ∧
    (on_clientId st response).st.subscription_id = some (.str s) ∧
    (on_clientId st response).emits
        = [Emit.probe, Emit.startSubscription (.str s)] ∧
    (on_clientId st response).err = none := by
  simp [on_clientId, hconn, hsub, hcheck, hresp, optFalsy]

/-- Witness for the amended C3 at a concrete input: the response of the spec
scenario, carrying only subscription id abc123. -/
theorem handshake_success_starts_subscription_witness :
    (on_clientId ⟨false, none⟩
        [("subscriptionId", JVal.str "abc123")]).st.connected = true ∧
    (on_clientId ⟨false, none⟩
        [("subscriptionId", JVal.str "abc123")]).st.subscription_id
        = some (.str "abc123") ∧
    (on_clientId ⟨false, none⟩ [("subscriptionId", JVal.str "abc123")]).emits
        = [Emit.probe, Emit.startSubscription (.str "abc123")] ∧
    (on_clientId ⟨false, none⟩ [("subscriptionId", JVal.str "abc123")]).err
        = none :=
  handshake_success_starts_subscription ⟨false, none⟩
    [("subscriptionId", JVal.str "abc123")] "abc123" rfl rfl (by decide)
    (by decide)

/-- C9: a clientId announcement received while the connected flag is set or a
non-falsy subscription id is held is ignored: no subscription-id fetch is
issued, state and stored id are unchanged, only the probe is emitted and no
error is raised; events are dispatched sequentially by the read loop, so under
this guard the handshake is never re-entered for a live subscription. -/
theorem duplicate_clientId_ignored (st : NsState) (response : JDict)
    (h : st.connected = true ∨ optFalsy st.subscription_id = false) :
    on_clientId st response = ⟨st, [Emit.probe], false, none⟩ := by
  rcases h with h | h
  · simp [on_clientId, h]
  · simp [on_clientId, h]

/-- Witness for C9 at a concrete input: an already subscribed state receiving
a fresh clientId announcement with a different id in the response. -/
theorem duplicate_clientId_ignored_witness :
    on_clientId ⟨true, some (.str "abc")⟩ [("subscriptionId", JVal.str "zzz")]
      = ⟨⟨true, some (.str "abc")⟩, [Emit.probe], false, none⟩ :=
  duplicate_clientId_ignored ⟨true, some (.str "abc")⟩
    [("subscriptionId", JVal.str "zzz")] (Or.inl rfl)

/-- C6 as stated is false: a status-only record arriving as an element of a
batch list is not acknowledged.  Python evaluates the status check on the
whole payload, and for a list that is element membership, false for a list of
records, so the batch falls through to the dispatcher, which merely drops the
record.  Concretely, on the live subscription channel the batch frame holding
only a status record emits no acknowledgment. -/
theorem status_batch_record_not_acked_counterexample :
    Emit.statusAck ∉
      (trigger_event ⟨true, some (.str "sid")⟩ [] (fun _ _ _ => false) "sid"
        (.arr [[("status", JVal.str "established")]]) []).emits := by
  decide

/-- C6 amended: a status-only record arriving as a single record on the live
subscription channel is acknowledged and not dispatched (no device callback
fires); a status-only record arriving as an element of a batch list also
fires no device callback — lacking iddevice it is dropped — but no
acknowledgment frame is sent for it. -/
theorem status_record_ack_single_not_batch (st : NsState) (reg : Registry)
    (beh : Beh) (ev : String) (fields : JDict) (elems : List JDict)
    (response : JDict)
    (hsub : st.subscription_id = some (.str ev))
    (h1 : ev ≠ "subscribe") (h2 : ev ≠ "connect") (h3 : ev ≠ "disconnect")
    (h4 : ev ≠ "clientId")
    (hstatus : (dictGet fields "status").isSome = true)
    (hnodev : dictGet fields "iddevice" = none) :
    ((trigger_event st reg beh ev (.obj fields) response).emits
        = [Emit.statusAck] ∧
      (trigger_event st reg beh ev (.obj fields) response).calls = []) ∧
    ((trigger_event st reg beh ev (.arr elems) response).emits = [] ∧
      ∀ c ∈ (trigger_event st reg beh ev (.arr elems) response).calls,
        c.2.2 ≠ fields) := by
  have hdev : getDeviceId fields = none := by simp [getDeviceId, hnodev]
  refine ⟨⟨?_, ?_⟩, ?_, ?_⟩
  · simp [trigger_event, h1, h2, h3, h4, hsub, hstatus]
  · simp [trigger_event, h1, h2, h3, h4, hsub, hstatus]
  · simp [trigger_event, h1, h2, h3, h4, hsub]
  · intro c hc
    simp only [trigger_event, h1, h2, h3, h4, hsub, if_false, if_true,
      if_neg, if_pos] at hc
    have hc2 : c ∈ (processList reg beh elems).1 := hc
    rw [processList_fst] at hc2
    rcases List.mem_flatten.mp hc2 with ⟨l, hl, hcl⟩
    rcases List.mem_map.mp hl with ⟨m, _, hml⟩
    rw [← hml] at hcl
    have hrec : c.2.2 = m := mem_process_message_calls reg beh m c hcl
    intro hce
    have hmf : m = fields := by rw [← hrec, hce]
    rw [hmf, process_message_none reg beh fields hdev] at hcl
    simp at hcl

/-- Witness for the amended C6 at the concrete input of the counterexample:
state subscribed to channel sid, single status record versus the
singleton batch. -/
theorem status_record_ack_single_not_batch_witness :
    (trigger_event ⟨true, some (.str "sid")⟩ [] (fun _ _ _ => false) "sid"
        (.obj [("status", JVal.str "established")]) []).emits
      = [Emit.statusAck] ∧
    (trigger_event ⟨true, some (.str "sid")⟩ [] (fun _ _ _ => false) "sid"
        (.obj [("status", JVal.str "established")]) []).calls = [] :=
  (status_record_ack_single_not_batch ⟨true, some (.str "sid")⟩ []
      (fun _ _ _ => false) "sid" [("status", JVal.str "established")]
      [[("status", JVal.str "established")]] [] rfl (by decide) (by decide)
      (by decide) (by decide) (by decide) (by decide)).1
